import Mathlib

/-!
Shallow embedding of the Gemini-Particle-Flower sources and proofs about them.

The embedded code comes from:
  * src/App.tsx                          (gesture combination)
  * src/components/ParticleCanvas.tsx    (particle engine: animate, calculateFlowerTarget)
  * src/components/GestureControl.tsx    (camera acquisition, sampling loop;
                                          the second component in the components file)
  * src/services/gemini.ts               (detectHandGesture)
  * src/types.ts                         (GestureType, Particle)

Numbers are modelled by a linear ordered field K (instantiated with the rationals
for concrete evaluation and with the reals where the host trigonometric functions
matter).  Host math functions (Math.cos, Math.sin, Math.sqrt, Math.atan2, Math.PI,
Math.random, Date.now, JSON.parse) are not code of this repository; they enter the
embedding as explicit parameters, instantiated with the corresponding real
functions where a claim depends on their values.
-/

namespace GeminiFlower

/-- Gesture labels, from src/types.ts (string enum GestureType with values
"FIST", "OPEN", "NONE"). -/
inductive GestureType where
  | FIST
  | OPEN
  | NONE
deriving DecidableEq

/-- Particle record, from src/types.ts.  The numeric fields are generic over the
number type K; color holds the CSS color string built each frame.  The optional
targetX/targetY fields are never read or written by the sources, so they are
omitted here. -/
structure Particle (K : Type) where
  x : K
  y : K
  vx : K
  vy : K
  color : String
  size : K
  baseX : K
  baseY : K
deriving DecidableEq

section Engine

variable {K : Type} [LinearOrderedField K]

/-- The calculateFlowerTarget function of src/components/ParticleCanvas.tsx.
The host Math.cos, Math.sin and Math.PI are passed as the parameters hostCos,
hostSin and hostPi (the real-valued reading instantiates them with Real.cos,
Real.sin and Real.pi).  Source:
  const k = 5;
  const theta = (index / total) * Math.PI * 2 * 4;
  const scale = Math.min(width, height) * 0.35;
  const r = scale * Math.cos(k * theta);
  return (centerX + r * Math.cos(theta), centerY + r * Math.sin(theta)). -/
def calculateFlowerTarget (hostCos hostSin : K → K) (hostPi : K)
    (index total : ℕ) (centerX centerY width height : K) : K × K :=
  let k : K := 5
  let theta : K := ((index : K) / (total : K)) * hostPi * 2 * 4
  let scale : K := min width height * (35 / 100)
  let r : K := scale * hostCos (k * theta)
  (centerX + r * hostCos theta, centerY + r * hostSin theta)

/-- The flower-mode branch of the per-particle physics update inside animate
(src/components/ParticleCanvas.tsx).  Given the already computed target point:
  p.vx = dx * 0.05; p.vy = dy * 0.05; p.x += p.vx; p.y += p.vy;
and the color is overwritten with the hsla string computed from Date.now and the
particle index, which reaches this function as colorStr. -/
def flowerStep (target : K × K) (colorStr : String) (p : Particle K) : Particle K :=
  let dx := target.1 - p.x
  let dy := target.2 - p.y
  let vx := dx * (5 / 100)
  let vy := dy * (5 / 100)
  { p with x := p.x + vx, y := p.y + vy, vx := vx, vy := vy, color := colorStr }

/-- The edge wrap applied to one coordinate in the open-mode branch of animate:
  if (p.x < 0) p.x = width;
  if (p.x > width) p.x = 0;
The two conditionals are sequential, the second one testing the value written by
the first. -/
def wrapCoord (bound : K) (x : K) : K :=
  let x1 := if x < 0 then bound else x
  if x1 > bound then 0 else x1

/-- The open-mode branch of the per-particle physics update inside animate
(src/components/ParticleCanvas.tsx).  rx and ry are the two Math.random() values
drawn for this particle this frame; hostSqrt, hostAtan2, hostCos, hostSin stand
for the host math functions used by the pointer-repulsion block, which only
touches the velocity (the position was already wrapped above it).  Source order:
noise, speed clamp to ±2, integration, edge wrap, pointer repulsion, color. -/
def openStep (hostSqrt : K → K) (hostAtan2 : K → K → K) (hostCos hostSin : K → K)
    (width height mouseX mouseY : K) (rx ry : K) (colorStr : String)
    (p : Particle K) : Particle K :=
  let vx1 := p.vx + (rx - 1 / 2) * (1 / 10)
  let vy1 := p.vy + (ry - 1 / 2) * (1 / 10)
  let vx2 := max (min vx1 2) (-2)
  let vy2 := max (min vy1 2) (-2)
  let x1 := p.x + vx2
  let y1 := p.y + vy2
  let x2 := wrapCoord width x1
  let y2 := wrapCoord height y1
  let dx := x2 - mouseX
  let dy := y2 - mouseY
  let dist := hostSqrt (dx * dx + dy * dy)
  let v3 :=
    if dist < 100 then
      let angle := hostAtan2 dy dx
      let force := (100 - dist) * (1 / 10)
      (vx2 + hostCos angle * force, vy2 + hostSin angle * force)
    else (vx2, vy2)
  { p with x := x2, y := y2, vx := v3.1, vy := v3.2, color := colorStr }

/-- The particlesRef.current.forEach((p, i) => ...) loop of animate, as an
index-passing recursion: each list element is replaced by body applied to its
index and itself. -/
def stepEach (body : ℕ → Particle K → Particle K) :
    ℕ → List (Particle K) → List (Particle K)
  | _, [] => []
  | i, p :: ps => body i p :: stepEach body (i + 1) ps

/-- One whole frame of the physics part of animate: mode selection
(isFlowerMode = gesture === GestureType.FIST), then the per-particle update.
noise i gives the pair of Math.random() values drawn for particle i this frame;
colorOf m i models the hsla color string built from Date.now() and i in mode m
(true = flower).  Rendering (clearRect, arc, fill, shadow) has no effect on the
particle state and is not modelled. -/
def stepAll (hostSqrt : K → K) (hostAtan2 : K → K → K) (hostCos hostSin : K → K)
    (hostPi : K) (gesture : GestureType) (width height mouseX mouseY : K)
    (noise : ℕ → K × K) (colorOf : Bool → ℕ → String)
    (ps : List (Particle K)) : List (Particle K) :=
  let total := ps.length
  stepEach
    (fun i p =>
      if gesture = GestureType.FIST then
        flowerStep
          (calculateFlowerTarget hostCos hostSin hostPi i total mouseX mouseY width height)
          (colorOf true i) p
      else
        openStep hostSqrt hostAtan2 hostCos hostSin width height mouseX mouseY
          (noise i).1 (noise i).2 (colorOf false i) p)
    0 ps

/-- Per-frame inputs of one animation frame: the authoritative gesture read that
frame, the surface dimensions, the pointer position, the Math.random() stream and
the colors built from Date.now(). -/
structure FrameInput (K : Type) where
  gesture : GestureType
  width : K
  height : K
  mouseX : K
  mouseY : K
  noise : ℕ → K × K
  colorOf : Bool → ℕ → String

/-- A run of consecutive animation frames over one particle population. -/
def runFrames (hostSqrt : K → K) (hostAtan2 : K → K → K) (hostCos hostSin : K → K)
    (hostPi : K) (frames : List (FrameInput K)) (ps : List (Particle K)) :
    List (Particle K) :=
  frames.foldl
    (fun acc f =>
      stepAll hostSqrt hostAtan2 hostCos hostSin hostPi f.gesture f.width f.height
        f.mouseX f.mouseY f.noise f.colorOf acc)
    ps

/-- Iterated flower-mode update of a single particle with a fixed target
(stationary pointer, fixed surface): the situation of the convergence claim.
colors n is the color string of step n. -/
def flowerIter (target : K × K) (colors : ℕ → String) :
    ℕ → Particle K → Particle K
  | 0, p => p
  | n + 1, p => flowerStep target (colors n) (flowerIter target colors n p)

end Engine

/-- Euclidean distance from a particle to its target point, over the reals. -/
noncomputable def distToTarget (target : ℝ × ℝ) (p : Particle ℝ) : ℝ :=
  Real.sqrt ((target.1 - p.x) ^ 2 + (target.2 - p.y) ^ 2)

/-- The gesture combination of src/App.tsx:
  const currentGesture = isShiftPressed ? GestureType.FIST : cameraGesture; -/
def currentGesture (isShiftPressed : Bool) (cameraGesture : GestureType) :
    GestureType :=
  if isShiftPressed then GestureType.FIST else cameraGesture

/-- A host exception value as seen by the camera error handler: its name and
message properties. -/
structure JsError where
  name : String
  message : String
deriving DecidableEq

/-- One entry of navigator.mediaDevices.enumerateDevices(). -/
structure MediaDeviceInfo where
  kind : String
  deviceId : String
deriving DecidableEq

/-- The outcome of startCamera as observed through component state: either the
stream was bound (setError(null), readiness signalled from onloadedmetadata) or
handleError stored a user-facing message. -/
inductive CamState where
  | ready
  | error (msg : String)
deriving DecidableEq

/-- The substring test err.message.includes(needle) of the host string type. -/
def jsIncludes (s needle : String) : Bool :=
  decide (needle.toList <:+: s.toList)

/-- The handleError classifier of the GestureControl component: maps the final
acquisition failure to the user-facing message, name cases first, then the
message-substring case (err.message && err.message.includes(...)), else the
default text. -/
def handleErrorMsg (e : JsError) : String :=
  if e.name = "NotAllowedError" ∨ e.name = "PermissionDeniedError" then
    "Permission denied. Please allow camera access."
  else if e.name = "NotReadableError" ∨ e.name = "TrackStartError" then
    "Camera is in use by another app."
  else if e.name = "NotFoundError" ∨ e.name = "DevicesNotFoundError" then
    "No camera found."
  else if e.message ≠ "" ∧ jsIncludes e.message "Could not start video source" then
    "Hardware error: Camera may be busy."
  else
    "Unable to access camera."

/-- The startCamera fallback chain of the GestureControl component.  The three
getUserMedia attempts and the device enumeration are host effects, passed in as
their outcomes: attempt1 is the constrained request, attempt2 the bare
video:true request, enumDevices the enumeration, and attempt3 d the request for
the explicit deviceId d.  A stream value itself carries no information the model
needs, so success is Unit.  Strategy 3 throws Error("No video input devices
found") when the filtered device list is empty; that error and every other
failure of strategy 3 reaches handleError. -/
def startCamera (attempt1 attempt2 : Except JsError Unit)
    (enumDevices : Except JsError (List MediaDeviceInfo))
    (attempt3 : String → Except JsError Unit) : CamState :=
  match attempt1 with
  | Except.ok _ => CamState.ready
  | Except.error _ =>
    match attempt2 with
    | Except.ok _ => CamState.ready
    | Except.error _ =>
      match enumDevices with
      | Except.error e => CamState.error (handleErrorMsg e)
      | Except.ok devices =>
        match devices.filter (fun d => d.kind == "videoinput") with
        | [] =>
          CamState.error
            (handleErrorMsg ⟨"Error", "No video input devices found"⟩)
        | d :: _ =>
          match attempt3 d.deviceId with
          | Except.ok _ => CamState.ready
          | Except.error e => CamState.error (handleErrorMsg e)

/-- Events seen by the captureAndAnalyze sampling cycle: a timer tick (carrying
whether the refs and the camera-ready flag allow capture, and the intrinsic
video dimensions), or the completion of a previously started classification
call (successfully or by the catch branch; the finally clause runs either
way). -/
inductive SamplerEvent where
  | tick (ready : Bool) (videoWidth videoHeight : ℕ)
  | complete (success : Bool)

/-- Sampler state: isProcessing is the busy flag of the component; inFlight is
the ghost count of started-but-uncompleted classification calls. -/
structure SamplerState where
  isProcessing : Bool
  inFlight : ℕ
deriving DecidableEq

/-- Initial sampler state: not processing, nothing in flight. -/
def samplerInit : SamplerState := ⟨false, 0⟩

/-- One transition of the sampling cycle, returning the next state and whether a
classification call was started.  Mirrors captureAndAnalyze: a tick returns at
once (dropping the tick, starting nothing) while the refs or readiness are
missing, while isProcessing is set, or while the video has zero intrinsic width
or height; otherwise it sets the busy flag and starts one call.  A completion
runs the finally clause, clearing the busy flag whether the call succeeded or
failed. -/
def samplerStep (s : SamplerState) (e : SamplerEvent) : SamplerState × Bool :=
  match e with
  | SamplerEvent.tick ready vw vh =>
    if ready = false ∨ s.isProcessing = true ∨ vw = 0 ∨ vh = 0 then (s, false)
    else (⟨true, s.inFlight + 1⟩, true)
  | SamplerEvent.complete _ => (⟨false, s.inFlight - 1⟩, false)

/-- Run of the sampling cycle over a sequence of events. -/
def samplerRun (events : List SamplerEvent) : SamplerState :=
  events.foldl (fun s e => (samplerStep s e).1) samplerInit

/-- A host JS value as far as the gemini service looks at one: the gesture
property read off the parsed payload is either absent (undefined) or a
string. -/
inductive JsVal where
  | undef
  | strv (s : String)
deriving DecidableEq

/-- The view of a successfully parsed classifier payload that
detectHandGesture reads: its (optional) gesture property. -/
structure GeminiPayload where
  gesture : JsVal
deriving DecidableEq

/-- The outcome of the ai.models.generateContent call as seen by
detectHandGesture: either the awaited promise rejects (network, transport,
SDK error), or it resolves with response.text being undefined or a string. -/
inductive GeminiResponse where
  | throws
  | success (text : Option String)

/-- The markdown-fence sanitizer inside detectHandGesture:
  if (jsonText.startsWith("```")) followed by the three regex replacements
  ^```json\s*  then  ^```\s*  then  \s*```$  applied in that order.
Each anchored replacement is: when the literal fence prefix (suffix) is
present, drop it and the adjacent whitespace run. -/
def sanitizeJson (s : String) : String :=
  if s.startsWith "```" then
    let s1 := if s.startsWith "```json" then
        ((s.drop 7).dropWhile Char.isWhitespace) else s
    let s2 := if s1.startsWith "```" then
        ((s1.drop 3).dropWhile Char.isWhitespace) else s1
    if s2.endsWith "```" then
      String.mk (((s2.dropRight 3).toList.reverse.dropWhile Char.isWhitespace).reverse)
    else s2
  else s

/-- The defaulting of the response text inside detectHandGesture:
  let jsonText = response.text || "..."
a response.text that is undefined or the empty string (both falsy) is replaced
by the two-character empty object literal. -/
def responseTextOrEmpty (text : Option String) : String :=
  match text with
  | none => "\x7b\x7d"
  | some t => if t = "" then "\x7b\x7d" else t

/-- The detectHandGesture function of src/services/gemini.ts.  jsonParse models
the host JSON.parse projected onto the one property the code reads (Except.error
when JSON.parse would throw); hasApiKey is whether process.env.API_KEY is a
nonempty string; resp is the outcome of the generateContent call.  The source:
returns NONE when no API key; catches every thrown error and returns NONE;
defaults response.text through the || fallback; strips markdown fences; parses;
and returns result.gesture, whatever value that property holds. -/
def detectHandGesture (jsonParse : String → Except Unit GeminiPayload)
    (hasApiKey : Bool) (resp : GeminiResponse) : JsVal :=
  if hasApiKey = false then JsVal.strv "NONE"
  else
    match resp with
    | GeminiResponse.throws => JsVal.strv "NONE"
    | GeminiResponse.success text =>
      match jsonParse (sanitizeJson (responseTextOrEmpty text)) with
      | Except.error _ => JsVal.strv "NONE"
      | Except.ok obj => obj.gesture

/-- Model of the host JSON.parse on the concrete payloads evaluated in this
development, projected onto the gesture property: the empty object literal
parses to an object with no gesture property (undefined); an object literal
binding gesture to a string parses to that string; everything else used here
would throw. -/
def jsonParseModel : String → Except Unit GeminiPayload := fun s =>
  if s = "\x7b\x7d" then Except.ok ⟨JsVal.undef⟩
  else if s = "\x7b\"gesture\": \"FIST\"\x7d" then Except.ok ⟨JsVal.strv "FIST"⟩
  else if s = "\x7b\"gesture\": \"OPEN\"\x7d" then Except.ok ⟨JsVal.strv "OPEN"⟩
  else if s = "\x7b\"gesture\": \"NONE\"\x7d" then Except.ok ⟨JsVal.strv "NONE"⟩
  else Except.error ()

/-! Concrete inputs used in closed evaluations.  The host math functions are
instantiated with constant-zero stand-ins where the evaluated quantity provably
does not depend on them: in the open-mode counterexample they only enter the
pointer-repulsion velocity update (never the position), and in the zero-area
counterexample the rose radius is 0 times the cosine, so any host model yields
the same particle coordinates. -/

/-- Constant-zero stand-in for a one-argument host math function. -/
def hostZero : ℚ → ℚ := fun _ => 0

/-- Constant-zero stand-in for the two-argument host atan2. -/
def hostZero2 : ℚ → ℚ → ℚ := fun _ _ => 0

/-- Math.random() stream returning 1/2 everywhere, making the open-mode noise
term (r - 0.5) * 0.1 vanish. -/
def constNoiseHalf : ℕ → ℚ × ℚ := fun _ => (1 / 2, 1 / 2)

/-- Math.random() stream returning 0 everywhere. -/
def zeroNoise : ℕ → ℚ × ℚ := fun _ => (0, 0)

/-- Color builder returning the empty string in both modes. -/
def noColor : Bool → ℕ → String := fun _ _ => ""

/-- A particle about to cross the left edge: position (0, 50), velocity
(-3, 0).  After noise 0 the x-velocity clamps to -2, the position moves to -2,
and the edge wrap fires. -/
def leftMover : Particle ℚ := ⟨0, 50, -3, 0, "", 1, 0, 0⟩

/-- A particle at (1, 0), at rest, used in the zero-area counterexample. -/
def unitParticle : Particle ℚ := ⟨1, 0, 0, 0, "", 1, 0, 0⟩

/-- A permission-denial failure as raised by getUserMedia. -/
def permError : JsError := ⟨"NotAllowedError", "Permission denied"⟩

/-- One enumerable camera device. -/
def camDevice : MediaDeviceInfo := ⟨"videoinput", "cam-0"⟩

/-- Third acquisition strategy succeeding for every deviceId. -/
def attemptOkAll : String → Except JsError Unit := fun _ => Except.ok ()

/-- Third acquisition strategy failing with the permission error for every
deviceId. -/
def attemptFailPerm : String → Except JsError Unit := fun _ => Except.error permError

/-- A parse function rejecting every string: the behaviour of the host
JSON.parse on an unparseable payload. -/
def parseErrAll : String → Except Unit GeminiPayload := fun _ => Except.error ()

/-! Theorems.  Shared helper lemmas first, then one theorem per claim. -/

section EngineLemmas

variable {K : Type}

/-- The forEach loop replaces elements one for one: the length never changes. -/
theorem stepEach_length (body : ℕ → Particle K → Particle K) :
    ∀ (i : ℕ) (ps : List (Particle K)), (stepEach body i ps).length = ps.length := by
  intro i ps
  induction ps generalizing i with
  | nil => rfl
  | cons p ps ih => simp [stepEach, ih]

/-- Every element of the updated population is the body applied to some index
and some element of the original population. -/
theorem mem_stepEach {body : ℕ → Particle K → Particle K} :
    ∀ {i : ℕ} {ps : List (Particle K)} {q : Particle K},
      q ∈ stepEach body i ps → ∃ j p, p ∈ ps ∧ q = body j p := by
  intro i ps
  induction ps generalizing i with
  | nil => intro q hq; simp [stepEach] at hq
  | cons p ps ih =>
    intro q hq
    rcases List.mem_cons.mp hq with h | h
    · exact ⟨i, p, List.mem_cons_self p ps, h⟩
    · obtain ⟨j, p', hp', hq'⟩ := ih h
      exact ⟨j, p', List.mem_cons_of_mem p hp', hq'⟩

/-- The sequential two-conditional edge wrap lands in the closed interval
[0, bound] whenever the bound is nonnegative.  It can land exactly on the
bound: a coordinate below 0 is set to the bound itself. -/
theorem wrapCoord_range [LinearOrderedField K] (bound x : K) (hb : 0 ≤ bound) :
    0 ≤ wrapCoord bound x ∧ wrapCoord bound x ≤ bound := by
  unfold wrapCoord
  dsimp only
  split_ifs with h1 h2 h2 <;> constructor <;> linarith

end EngineLemmas

/-- C5: the authoritative gesture of src/App.tsx equals FIST while the shift
override is held, and equals the camera-derived label otherwise; in one formula,
authoritative = override ? FIST : cameraLabel. -/
theorem gesture_combination_spec :
    ∀ (g : GestureType),
      currentGesture true g = GestureType.FIST ∧
      currentGesture false g = g ∧
      ∀ b : Bool, currentGesture b g = if b then GestureType.FIST else g := by
  intro g
  refine ⟨rfl, rfl, ?_⟩
  intro b
  cases b <;> rfl

/-- C9: for every initialized particle population and every sequence of frames
under any sequence of gesture labels, the particle count is unchanged: no
particle is created or destroyed.  The step is a total Lean function, so no
frame can fail. -/
theorem particle_count_invariant (K : Type) [LinearOrderedField K]
    (hostSqrt : K → K) (hostAtan2 : K → K → K) (hostCos hostSin : K → K)
    (hostPi : K) (frames : List (FrameInput K)) (ps : List (Particle K)) :
    (runFrames hostSqrt hostAtan2 hostCos hostSin hostPi frames ps).length =
      ps.length := by
  induction frames generalizing ps with
  | nil => rfl
  | cons f fs ih =>
    show (runFrames hostSqrt hostAtan2 hostCos hostSin hostPi fs
        (stepAll hostSqrt hostAtan2 hostCos hostSin hostPi f.gesture f.width
          f.height f.mouseX f.mouseY f.noise f.colorOf ps)).length = ps.length
    rw [ih]
    exact stepEach_length _ 0 ps

/-- C8 (amended): in the not-yet-sized state the particle population is empty,
and the per-frame step (and any run of frames) over the empty population
changes nothing and raises no error; the step itself has no zero-area guard. -/
theorem step_unsized_noop (K : Type) [LinearOrderedField K]
    (hostSqrt : K → K) (hostAtan2 : K → K → K) (hostCos hostSin : K → K)
    (hostPi : K) (g : GestureType) (w h mx my : K) (noise : ℕ → K × K)
    (colorOf : Bool → ℕ → String) (frames : List (FrameInput K)) :
    stepAll hostSqrt hostAtan2 hostCos hostSin hostPi g w h mx my noise colorOf
        ([] : List (Particle K)) = [] ∧
    runFrames hostSqrt hostAtan2 hostCos hostSin hostPi frames
        ([] : List (Particle K)) = [] := by
  constructor
  · rfl
  · induction frames with
    | nil => rfl
    | cons f fs ih => exact ih

/-- C8 (counterexample): with a zero-area surface (width = height = 0) and a
nonempty population, the per-frame step is not a no-op: in flower mode the
target degenerates to the pointer (the rose radius is 0 times the host cosine,
so this holds for every model of the host math functions) and the particle at
(1, 0) moves toward the pointer at (0, 0). -/
theorem zero_area_step_changes_particle :
    stepAll hostZero hostZero2 hostZero hostZero 0 GestureType.FIST (0 : ℚ) 0 0 0
        zeroNoise noColor [unitParticle] ≠ [unitParticle] := by
  simp only [stepAll, stepEach, flowerStep, calculateFlowerTarget, hostZero,
    hostZero2, zeroNoise, noColor, unitParticle, reduceIte]
  simp only [List.cons.injEq, Particle.mk.injEq, ne_eq, not_and]
  norm_num

/-- C1 (amended): in open mode (gesture OPEN or NONE), after the edge wrap each
resulting coordinate lies in the closed interval [0, width] horizontally and
[0, height] vertically; it can equal the bound exactly, because a coordinate
that crossed the lower edge is set to the bound itself. -/
theorem open_mode_wrap_range (K : Type) [LinearOrderedField K]
    (hostSqrt : K → K) (hostAtan2 : K → K → K) (hostCos hostSin : K → K)
    (hostPi : K) (g : GestureType) (w h mx my : K) (noise : ℕ → K × K)
    (colorOf : Bool → ℕ → String) (ps : List (Particle K))
    (hg : g = GestureType.OPEN ∨ g = GestureType.NONE) (hw : 0 ≤ w) (hh : 0 ≤ h) :
    ∀ q ∈ stepAll hostSqrt hostAtan2 hostCos hostSin hostPi g w h mx my noise
        colorOf ps, 0 ≤ q.x ∧ q.x ≤ w ∧ 0 ≤ q.y ∧ q.y ≤ h := by
  intro q hq
  have hne : ¬ g = GestureType.FIST := by
    rcases hg with rfl | rfl <;> simp
  simp only [stepAll] at hq
  obtain ⟨j, p, _, rfl⟩ := mem_stepEach hq
  rw [if_neg hne]
  have hx := wrapCoord_range w
    (p.x + max (min (p.vx + ((noise j).1 - 1 / 2) * (1 / 10)) 2) (-2)) hw
  have hy := wrapCoord_range h
    (p.y + max (min (p.vy + ((noise j).2 - 1 / 2) * (1 / 10)) 2) (-2)) hh
  simp only [openStep]
  exact ⟨hx.1, hx.2, hy.1, hy.2⟩

/-- C1 (witness): the amended bound holds on a concrete open-mode step over the
rationals. -/
theorem open_mode_wrap_range_witness :
    (GestureType.OPEN = GestureType.OPEN ∨ GestureType.OPEN = GestureType.NONE) ∧
    (0 : ℚ) ≤ 100 ∧
    ∀ q ∈ stepAll hostZero hostZero2 hostZero hostZero 0 GestureType.OPEN
        (100 : ℚ) 100 500 500 constNoiseHalf noColor [leftMover],
      0 ≤ q.x ∧ q.x ≤ 100 ∧ 0 ≤ q.y ∧ q.y ≤ 100 :=
  ⟨Or.inl rfl, by norm_num,
    open_mode_wrap_range ℚ hostZero hostZero2 hostZero hostZero 0
      GestureType.OPEN 100 100 500 500 constNoiseHalf noColor [leftMover]
      (Or.inl rfl) (by norm_num) (by norm_num)⟩

/-- C1 (counterexample): the claim as stated (coordinates strictly below the
bound after wrap) fails: a particle at x = 0 with x-velocity -3 (clamped to -2
under vanishing noise) crosses the left edge and the wrap sets its x-coordinate
to width itself, here exactly 100. -/
theorem open_mode_wrap_not_strict :
    ¬ (∀ q ∈ stepAll hostZero hostZero2 hostZero hostZero 0 GestureType.OPEN
        (100 : ℚ) 100 500 500 constNoiseHalf noColor [leftMover],
          q.x < 100 ∧ q.y < 100) := by
  intro hall
  have hmem :
      stepAll hostZero hostZero2 hostZero hostZero 0 GestureType.OPEN
        (100 : ℚ) 100 500 500 constNoiseHalf noColor [leftMover] =
      [⟨100, 50, -2, 0, "", 1, 0, 0⟩] := by
    simp only [stepAll, stepEach, openStep, wrapCoord, leftMover, hostZero,
      hostZero2, constNoiseHalf, noColor, reduceCtorEq, reduceIte]
    norm_num
  have h := hall ⟨100, 50, -2, 0, "", 1, 0, 0⟩ (by rw [hmem]; exact List.mem_singleton_self _)
  exact absurd h.1 (by norm_num)

/-- One sampler transition preserves the single-flight invariant: at most one
call in flight, and the busy flag set exactly while one is. -/
theorem samplerStep_preserves_inv (s : SamplerState) (e : SamplerEvent)
    (h1 : s.inFlight ≤ 1) (h2 : s.isProcessing = true ↔ s.inFlight = 1) :
    (samplerStep s e).1.inFlight ≤ 1 ∧
      ((samplerStep s e).1.isProcessing = true ↔ (samplerStep s e).1.inFlight = 1) := by
  cases e with
  | tick ready vw vh =>
    by_cases hc : ready = false ∨ s.isProcessing = true ∨ vw = 0 ∨ vh = 0
    · simpa [samplerStep, hc] using ⟨h1, h2⟩
    · push_neg at hc
      have hp : s.isProcessing = false := by
        cases hb : s.isProcessing with
        | false => rfl
        | true => exact absurd hb hc.2.1
      have h0 : s.inFlight = 0 := by
        have : ¬ s.inFlight = 1 := fun h => by simp [h2.mpr h] at hp
        omega
      simp [samplerStep, hc.1, hp, hc.2.2.1, hc.2.2.2, h0]
  | complete ok =>
    have : s.inFlight - 1 = 0 := by omega
    simp [samplerStep, this]

/-- The single-flight invariant holds after any event sequence started in a
state satisfying it. -/
theorem samplerFold_inv :
    ∀ (events : List SamplerEvent) (s : SamplerState), s.inFlight ≤ 1 →
      (s.isProcessing = true ↔ s.inFlight = 1) →
      (events.foldl (fun s e => (samplerStep s e).1) s).inFlight ≤ 1 ∧
        ((events.foldl (fun s e => (samplerStep s e).1) s).isProcessing = true ↔
          (events.foldl (fun s e => (samplerStep s e).1) s).inFlight = 1) := by
  intro events
  induction events with
  | nil => intro s h1 h2; exact ⟨h1, h2⟩
  | cons e es ih =>
    intro s h1 h2
    have h := samplerStep_preserves_inv s e h1 h2
    exact ih _ h.1 h.2

/-- C4: over every event sequence at most one classification call is in flight
(and the busy flag is set exactly while one is); a tick that fires while the
busy flag is set or while the video has zero intrinsic width or height changes
nothing and starts no call; a tick that does start a call found the flag clear
and sets it; and a completion clears the busy flag whether the call succeeded
or failed, starting nothing. -/
theorem sampler_single_flight :
    (∀ events : List SamplerEvent,
        (samplerRun events).inFlight ≤ 1 ∧
        ((samplerRun events).isProcessing = true ↔ (samplerRun events).inFlight = 1)) ∧
    (∀ (s : SamplerState) (ready : Bool) (vw vh : ℕ),
        s.isProcessing = true ∨ vw = 0 ∨ vh = 0 →
        samplerStep s (SamplerEvent.tick ready vw vh) = (s, false)) ∧
    (∀ (s : SamplerState) (ready : Bool) (vw vh : ℕ),
        (samplerStep s (SamplerEvent.tick ready vw vh)).2 = true →
        s.isProcessing = false ∧
          (samplerStep s (SamplerEvent.tick ready vw vh)).1.isProcessing = true) ∧
    (∀ (s : SamplerState) (ok : Bool),
        (samplerStep s (SamplerEvent.complete ok)).1.isProcessing = false ∧
        (samplerStep s (SamplerEvent.complete ok)).2 = false) := by
  refine ⟨?_, ?_, ?_, ?_⟩
  · intro events
    exact samplerFold_inv events samplerInit (by simp [samplerInit]) (by simp [samplerInit])
  · intro s ready vw vh h
    have : ready = false ∨ s.isProcessing = true ∨ vw = 0 ∨ vh = 0 := Or.inr h
    simp [samplerStep, this]
  · intro s ready vw vh h
    by_cases hc : ready = false ∨ s.isProcessing = true ∨ vw = 0 ∨ vh = 0
    · simp [samplerStep, hc] at h
    · push_neg at hc
      have hp : s.isProcessing = false := by
        cases hb : s.isProcessing with
        | false => rfl
        | true => exact absurd hb hc.2.1
      simp [samplerStep, hc.1, hp, hc.2.2.1, hc.2.2.2]
  · intro s ok
    simp [samplerStep]

/-- C4 (witness): the guarantees at concrete states: a run of two back-to-back
ticks and one completion keeps at most one call in flight; a tick in the busy
state is dropped without change; a failing completion clears the flag. -/
theorem sampler_single_flight_witness :
    (samplerRun [SamplerEvent.tick true 320 240, SamplerEvent.tick true 320 240,
        SamplerEvent.complete true]).inFlight ≤ 1 ∧
    samplerStep ⟨true, 1⟩ (SamplerEvent.tick true 320 240) = (⟨true, 1⟩, false) ∧
    (samplerStep ⟨false, 0⟩ (SamplerEvent.complete false)).1.isProcessing = false :=
  ⟨(sampler_single_flight.1 [SamplerEvent.tick true 320 240,
      SamplerEvent.tick true 320 240, SamplerEvent.complete true]).1,
   sampler_single_flight.2.1 ⟨true, 1⟩ true 320 240 (Or.inl rfl),
   (sampler_single_flight.2.2.2 ⟨false, 0⟩ false).1⟩

/-- C3: the acquisition chain tries the constrained request, the bare request,
then the first enumerated video device, stopping ready at the first success;
the error state arises exactly when every strategy failed, carrying the
classification of the final failure; and the classifier maps the error names
NotAllowedError/PermissionDeniedError, NotReadableError/TrackStartError and
NotFoundError/DevicesNotFoundError to the permission, in-use and no-camera
messages, a remaining error whose message contains the video-source phrase to
the hardware message, and everything else to the generic message. -/
theorem startCamera_fallback_spec :
    (∀ (a1 a2 : Except JsError Unit) (enum : Except JsError (List MediaDeviceInfo))
        (a3 : String → Except JsError Unit),
      (∀ u, a1 = Except.ok u → startCamera a1 a2 enum a3 = CamState.ready) ∧
      (∀ e1 u, a1 = Except.error e1 → a2 = Except.ok u →
          startCamera a1 a2 enum a3 = CamState.ready) ∧
      (∀ e1 e2 devs d rest u, a1 = Except.error e1 → a2 = Except.error e2 →
          enum = Except.ok devs →
          devs.filter (fun d => d.kind == "videoinput") = d :: rest →
          a3 d.deviceId = Except.ok u →
          startCamera a1 a2 enum a3 = CamState.ready) ∧
      (∀ e1 e2 e, a1 = Except.error e1 → a2 = Except.error e2 →
          enum = Except.error e →
          startCamera a1 a2 enum a3 = CamState.error (handleErrorMsg e)) ∧
      (∀ e1 e2 devs, a1 = Except.error e1 → a2 = Except.error e2 →
          enum = Except.ok devs →
          devs.filter (fun d => d.kind == "videoinput") = [] →
          startCamera a1 a2 enum a3 =
            CamState.error
              (handleErrorMsg ⟨"Error", "No video input devices found"⟩)) ∧
      (∀ e1 e2 devs d rest e, a1 = Except.error e1 → a2 = Except.error e2 →
          enum = Except.ok devs →
          devs.filter (fun d => d.kind == "videoinput") = d :: rest →
          a3 d.deviceId = Except.error e →
          startCamera a1 a2 enum a3 = CamState.error (handleErrorMsg e))) ∧
    (∀ e : JsError,
      (e.name = "NotAllowedError" ∨ e.name = "PermissionDeniedError" →
          handleErrorMsg e = "Permission denied. Please allow camera access.") ∧
      (e.name = "NotReadableError" ∨ e.name = "TrackStartError" →
          handleErrorMsg e = "Camera is in use by another app.") ∧
      (e.name = "NotFoundError" ∨ e.name = "DevicesNotFoundError" →
          handleErrorMsg e = "No camera found.") ∧
      (e.name ≠ "NotAllowedError" → e.name ≠ "PermissionDeniedError" →
       e.name ≠ "NotReadableError" → e.name ≠ "TrackStartError" →
       e.name ≠ "NotFoundError" → e.name ≠ "DevicesNotFoundError" →
       e.message ≠ "" →
       jsIncludes e.message "Could not start video source" = true →
          handleErrorMsg e = "Hardware error: Camera may be busy.") ∧
      (e.name ≠ "NotAllowedError" → e.name ≠ "PermissionDeniedError" →
       e.name ≠ "NotReadableError" → e.name ≠ "TrackStartError" →
       e.name ≠ "NotFoundError" → e.name ≠ "DevicesNotFoundError" →
       (e.message = "" ∨ jsIncludes e.message "Could not start video source" = false) →
          handleErrorMsg e = "Unable to access camera.")) := by
  constructor
  · intro a1 a2 enum a3
    refine ⟨?_, ?_, ?_, ?_, ?_, ?_⟩
    · rintro u rfl; rfl
    · rintro e1 u rfl rfl; rfl
    · rintro e1 e2 devs d rest u rfl rfl rfl hf h3
      simp [startCamera, hf, h3]
    · rintro e1 e2 e rfl rfl rfl; rfl
    · rintro e1 e2 devs rfl rfl rfl hf
      simp [startCamera, hf]
    · rintro e1 e2 devs d rest e rfl rfl rfl hf h3
      simp [startCamera, hf, h3]
  · intro e
    refine ⟨?_, ?_, ?_, ?_, ?_⟩
    · rintro (h | h) <;> simp [handleErrorMsg, h]
    · rintro (h | h) <;> simp [handleErrorMsg, h]
    · rintro (h | h) <;> simp [handleErrorMsg, h]
    · intro h1 h2 h3 h4 h5 h6 hm hi
      simp [handleErrorMsg, h1, h2, h3, h4, h5, h6, hm, hi]
    · intro h1 h2 h3 h4 h5 h6 hm
      rcases hm with hm | hm <;> simp [handleErrorMsg, h1, h2, h3, h4, h5, h6, hm]

/-- C3 (witness): with strategies 1 and 2 failing and one enumerable video
device present, strategy 3 succeeds and the source is ready; with all three
strategies failing on a permission denial, the error state carries the
permission-denied message. -/
theorem startCamera_fallback_spec_witness :
    startCamera (Except.error permError) (Except.error permError)
        (Except.ok [camDevice]) attemptOkAll = CamState.ready ∧
    startCamera (Except.error permError) (Except.error permError)
        (Except.ok [camDevice]) attemptFailPerm =
      CamState.error "Permission denied. Please allow camera access." := by
  constructor
  · exact (startCamera_fallback_spec.1 (Except.error permError)
      (Except.error permError) (Except.ok [camDevice]) attemptOkAll).2.2.1
      permError permError [camDevice] camDevice [] () rfl rfl rfl (by rfl) rfl
  · have h := (startCamera_fallback_spec.1 (Except.error permError)
      (Except.error permError) (Except.ok [camDevice]) attemptFailPerm).2.2.2.2.2
      permError permError [camDevice] camDevice [] permError rfl rfl rfl (by rfl) rfl
    have hmsg := (startCamera_fallback_spec.2 permError).1 (Or.inl rfl)
    rw [h, hmsg]

/-- C2 (code-bug evaluation): the failure paths the claim names are indeed
mapped to NONE — a missing API key, a thrown transport error, and a payload on
which JSON.parse throws — but the empty payload is not: response.text empty or
undefined is defaulted to the empty object literal, which parses successfully
with no gesture property, and detectHandGesture returns that undefined property
value unchanged, which is none of FIST, OPEN, NONE, contradicting the declared
return type Promise of GestureType. -/
theorem detectHandGesture_empty_payload_bug :
    (∀ (parse : String → Except Unit GeminiPayload) (resp : GeminiResponse),
        detectHandGesture parse false resp = JsVal.strv "NONE") ∧
    (∀ parse : String → Except Unit GeminiPayload,
        detectHandGesture parse true GeminiResponse.throws = JsVal.strv "NONE") ∧
    (∀ (parse : String → Except Unit GeminiPayload) (text : Option String),
        parse (sanitizeJson (responseTextOrEmpty text)) = Except.error () →
        detectHandGesture parse true (GeminiResponse.success text) = JsVal.strv "NONE") ∧
    detectHandGesture jsonParseModel true (GeminiResponse.success none) = JsVal.undef ∧
    detectHandGesture jsonParseModel true (GeminiResponse.success (some "")) = JsVal.undef ∧
    JsVal.undef ≠ JsVal.strv "FIST" ∧
    JsVal.undef ≠ JsVal.strv "OPEN" ∧
    JsVal.undef ≠ JsVal.strv "NONE" := by
  refine ⟨fun parse resp => rfl, fun parse => rfl, ?_, rfl, rfl, by decide, by decide, by decide⟩
  intro parse text h
  simp [detectHandGesture, h]

/-- C2 (witness): the parse-failure clause at a concrete unparseable payload,
with the everywhere-rejecting parse function. -/
theorem detectHandGesture_empty_payload_bug_witness :
    parseErrAll (sanitizeJson (responseTextOrEmpty (some "garbage"))) = Except.error () ∧
    detectHandGesture parseErrAll true (GeminiResponse.success (some "garbage")) =
      JsVal.strv "NONE" :=
  ⟨rfl, detectHandGesture_empty_payload_bug.2.2.1 parseErrAll (some "garbage") rfl⟩

/-- C6: calculateFlowerTarget, read with the host trigonometric functions as
the real cos, sin and pi, is the pure rose-curve point of the claim: with
theta = (index / total) * 8 * pi and scale = 0.35 * min width height, it
returns exactly (centerX + scale * cos (5 * theta) * cos theta,
centerY + scale * cos (5 * theta) * sin theta), a point on the 5-petal rose
r = scale * cos (5 * theta); as index ranges over the population, theta sweeps
four full revolutions. -/
theorem calculateFlowerTarget_rose_curve :
    ∀ (index total : ℕ) (cx cy w h : ℝ),
      calculateFlowerTarget Real.cos Real.sin Real.pi index total cx cy w h =
        (cx + 0.35 * min w h *
            (Real.cos (5 * ((index : ℝ) / (total : ℝ) * (8 * Real.pi))) *
             Real.cos ((index : ℝ) / (total : ℝ) * (8 * Real.pi))),
         cy + 0.35 * min w h *
            (Real.cos (5 * ((index : ℝ) / (total : ℝ) * (8 * Real.pi))) *
             Real.sin ((index : ℝ) / (total : ℝ) * (8 * Real.pi)))) := by
  intro index total cx cy w h
  have hθ : (index : ℝ) / (total : ℝ) * Real.pi * 2 * 4 =
      (index : ℝ) / (total : ℝ) * (8 * Real.pi) := by ring
  simp only [calculateFlowerTarget, hθ, Prod.mk.injEq]
  constructor <;> · norm_num; ring

/-- Componentwise displacement to a fixed target after n flower-mode steps:
each step multiplies the remaining displacement by exactly 0.95 in each
coordinate. -/
theorem flowerIter_displacement (target : ℝ × ℝ) (colors : ℕ → String)
    (p : Particle ℝ) :
    ∀ n : ℕ,
      target.1 - (flowerIter target colors n p).x =
        (95 / 100) ^ n * (target.1 - p.x) ∧
      target.2 - (flowerIter target colors n p).y =
        (95 / 100) ^ n * (target.2 - p.y) := by
  intro n
  induction n with
  | zero => simp [flowerIter]
  | succ n ih =>
    simp only [flowerIter, flowerStep]
    constructor
    · rw [pow_succ]
      linear_combination (95 / 100 : ℝ) * ih.1
    · rw [pow_succ]
      linear_combination (95 / 100 : ℝ) * ih.2

/-- Scaling a displacement by a nonnegative factor scales the Euclidean norm by
that factor. -/
theorem sqrt_sum_sq_scale (c a b : ℝ) (hc : 0 ≤ c) :
    Real.sqrt ((c * a) ^ 2 + (c * b) ^ 2) = c * Real.sqrt (a ^ 2 + b ^ 2) := by
  have h : (c * a) ^ 2 + (c * b) ^ 2 = c ^ 2 * (a ^ 2 + b ^ 2) := by ring
  rw [h, Real.sqrt_mul (sq_nonneg c), Real.sqrt_sq hc]

/-- C7: in flower mode with a fixed target (stationary pointer, fixed surface),
one step overwrites the velocity to 0.05 times the displacement to the target
and adds it to the position, so the remaining displacement is multiplied by
exactly 0.95 in each coordinate; over n steps the distance to the target equals
0.95 to the n times the initial distance, hence decreases monotonically. -/
theorem flower_mode_exponential_convergence :
    ∀ (target : ℝ × ℝ) (colors : ℕ → String) (c : String) (p : Particle ℝ) (n : ℕ),
      (flowerStep target c p).vx = (target.1 - p.x) * (5 / 100) ∧
      (flowerStep target c p).vy = (target.2 - p.y) * (5 / 100) ∧
      (flowerStep target c p).x = p.x + (flowerStep target c p).vx ∧
      (flowerStep target c p).y = p.y + (flowerStep target c p).vy ∧
      target.1 - (flowerStep target c p).x = (95 / 100) * (target.1 - p.x) ∧
      target.2 - (flowerStep target c p).y = (95 / 100) * (target.2 - p.y) ∧
      distToTarget target (flowerIter target colors n p) =
        (95 / 100) ^ n * distToTarget target p ∧
      distToTarget target (flowerIter target colors (n + 1) p) ≤
        distToTarget target (flowerIter target colors n p) := by
  intro target colors c p n
  have hdist : ∀ m : ℕ,
      distToTarget target (flowerIter target colors m p) =
        (95 / 100) ^ m * distToTarget target p := by
    intro m
    have h := flowerIter_displacement target colors p m
    unfold distToTarget
    rw [h.1, h.2]
    exact sqrt_sum_sq_scale _ _ _ (pow_nonneg (by norm_num) m)
  refine ⟨rfl, rfl, by simp [flowerStep], by simp [flowerStep],
    by simp [flowerStep]; ring, by simp [flowerStep]; ring, hdist n, ?_⟩
  rw [hdist n, hdist (n + 1)]
  have hpow : (95 / 100 : ℝ) ^ (n + 1) ≤ (95 / 100) ^ n :=
    pow_le_pow_of_le_one (by norm_num) (by norm_num) (Nat.le_succ n)
  exact mul_le_mul_of_nonneg_right hpow (Real.sqrt_nonneg _)

/-- C10: flower mode applies no edge wrap, clamp or bounce: the new position is
exactly the old position plus 0.05 times the displacement to the target, even
outside the surface; and with the pointer on the left edge of a 100 by 100
surface (pointer at (0, 50)), the target of particle index 3 of 32 has
x-coordinate -35/2, strictly outside [0, 100), and a particle sitting at that
target stays there under the flower step: it rests outside the bounds. -/
theorem flower_mode_no_wrap_rest_outside :
    (∀ (t : ℝ × ℝ) (c : String) (p : Particle ℝ),
        (flowerStep t c p).x = p.x + (t.1 - p.x) * (5 / 100) ∧
        (flowerStep t c p).y = p.y + (t.2 - p.y) * (5 / 100)) ∧
    (calculateFlowerTarget Real.cos Real.sin Real.pi 3 32 0 50 100 100).1 = -(35 / 2) ∧
    (calculateFlowerTarget Real.cos Real.sin Real.pi 3 32 0 50 100 100).1 < 0 ∧
    (∀ (c col : String) (vx0 vy0 sz bx0 by0 : ℝ),
        (flowerStep (calculateFlowerTarget Real.cos Real.sin Real.pi 3 32 0 50 100 100) c
            ⟨(calculateFlowerTarget Real.cos Real.sin Real.pi 3 32 0 50 100 100).1,
             (calculateFlowerTarget Real.cos Real.sin Real.pi 3 32 0 50 100 100).2,
             vx0, vy0, col, sz, bx0, by0⟩).x =
          (calculateFlowerTarget Real.cos Real.sin Real.pi 3 32 0 50 100 100).1 ∧
        (flowerStep (calculateFlowerTarget Real.cos Real.sin Real.pi 3 32 0 50 100 100) c
            ⟨(calculateFlowerTarget Real.cos Real.sin Real.pi 3 32 0 50 100 100).1,
             (calculateFlowerTarget Real.cos Real.sin Real.pi 3 32 0 50 100 100).2,
             vx0, vy0, col, sz, bx0, by0⟩).y =
          (calculateFlowerTarget Real.cos Real.sin Real.pi 3 32 0 50 100 100).2) := by
  have htarget :
      (calculateFlowerTarget Real.cos Real.sin Real.pi 3 32 0 50 100 100).1 = -(35 / 2) := by
    have hA : ((3 : ℕ) : ℝ) / ((32 : ℕ) : ℝ) * Real.pi * 2 * 4 =
        Real.pi - Real.pi / 4 := by push_cast; ring
    have hB : (5 : ℝ) * (((3 : ℕ) : ℝ) / ((32 : ℕ) : ℝ) * Real.pi * 2 * 4) =
        2 * Real.pi - Real.pi / 4 + 2 * Real.pi := by push_cast; ring
    simp only [calculateFlowerTarget]
    rw [hB, hA, Real.cos_add_two_pi, Real.cos_two_pi_sub, Real.cos_pi_div_four,
      Real.cos_pi_sub, Real.cos_pi_div_four]
    rw [min_self]
    nlinarith [Real.mul_self_sqrt (show (0 : ℝ) ≤ 2 by norm_num)]
  refine ⟨?_, htarget, by rw [htarget]; norm_num, ?_⟩
  · intro t c p
    exact ⟨rfl, rfl⟩
  · intro c col vx0 vy0 sz bx0 by0
    constructor <;> · simp [flowerStep]

end GeminiFlower
